import Mathlib

/-!
Verification of the payment settlement core of the creditFlow repository
(backend/src/routes/payments.ts, served from src/backend/src/config/razorpay.ts,
together with backend/src/utils/activityLogger.ts and the prisma migrations).

Monetary values (JavaScript numbers in the source) are modelled as rationals;
database TEXT primary keys (cuid strings) are modelled as distinct naturals
handed out by a counter.  Prisma's interactive `$transaction` is modelled by
its documented semantics: the callback either completes and its writes commit,
or it throws and every write made through the transaction client is rolled
back, the error being rethrown to the caller.
-/

namespace CreditFlow

/-- Payment.status column: PENDING | SUCCESS | FAILED. -/
inductive PayStatus where
  | PENDING
  | SUCCESS
  | FAILED
deriving DecidableEq, Repr

/-- The status argument accepted by `processPayment` and by the webhook schema
(`z.enum(['SUCCESS', 'FAILED'])`): only the two terminal outcomes. -/
inductive Outcome where
  | SUCCESS
  | FAILED
deriving DecidableEq, Repr

/-- Embed a webhook outcome into the Payment.status enum. -/
def Outcome.toStatus : Outcome → PayStatus
  | .SUCCESS => .SUCCESS
  | .FAILED => .FAILED

/-- Card.status column (spec section 3): ACTIVE | BLOCKED | SUSPENDED. -/
inductive CardStatus where
  | ACTIVE
  | BLOCKED
  | SUSPENDED
deriving DecidableEq, Repr

/-- A row of the Card table (the columns the settlement core reads). -/
structure Card where
  id : Nat
  userId : Nat
  status : CardStatus
  last4 : String
deriving DecidableEq, Repr

/-- A row of the Statement table (the columns the settlement core reads and
writes): cardId is NOT NULL in the schema, balance is DOUBLE PRECISION,
isPaid BOOLEAN NOT NULL DEFAULT false.  dueDate is modelled as a day ordinal. -/
structure Statement where
  id : Nat
  cardId : Nat
  dueDate : Nat
  balance : ℚ
  isPaid : Bool
deriving DecidableEq, Repr

/-- A row of the Payment table.  After migration 20250916110643, cardId is
nullable (`ALTER COLUMN "cardId" DROP NOT NULL`).  The migrations create no
idempotencyKey column; the field below only exists in the model so that the
creation handler's guarded lookup can be stated, and it is `none` on every
row the code ever writes (the creation handler leaves the commented-out
assignment at razorpay.ts:156-157 disabled). -/
structure Payment where
  id : Nat
  cardId : Option Nat
  userId : Nat
  amount : ℚ
  method : String
  status : PayStatus
  externalId : Option String
  idempotencyKey : Option String
deriving DecidableEq, Repr

/-- The database state the settlement core touches.  `activities` counts the
rows of the append-only Activity table and `notifications` the rows written by
the notifications collaborator.  `hasIdemKeyColumn` records whether the
Payment table has an idempotencyKey column: the shipped migrations never add
one, so on the real schema it is `false`; the creation handler's catch block
(razorpay.ts:142-145) makes the lookup a no-op in that case.  `nextId` feeds
fresh primary keys. -/
structure Db where
  cards : List Card
  statements : List Statement
  payments : List Payment
  activities : Nat
  notifications : Nat
  hasIdemKeyColumn : Bool
  nextId : Nat
deriving DecidableEq, Repr

/-- Prisma's `findFirst`/`findUnique`: the first row satisfying the predicate,
if any. -/
def findFirst (p : α → Bool) : List α → Option α
  | [] => none
  | a :: l => if p a then some a else findFirst p l

/-- `statements.reduce((sum, statement) => sum + (Number(statement.balance) || 0), 0)`
(razorpay.ts:108): left fold of balances starting from 0. -/
def sumBalances (l : List Statement) : ℚ :=
  l.foldl (fun acc s => acc + s.balance) 0

/-- Insert a statement into a list that is already ascending by dueDate,
keeping it ascending (helper for the `orderBy: { dueDate: 'asc' }` fetch). -/
def insertByDue (s : Statement) : List Statement → List Statement
  | [] => [s]
  | t :: ts => if s.dueDate ≤ t.dueDate then s :: t :: ts else t :: insertByDue s ts

/-- Sort statements ascending by dueDate (the database's
`orderBy: { dueDate: 'asc' }`). -/
def sortByDue : List Statement → List Statement
  | [] => []
  | s :: ss => insertByDue s (sortByDue ss)

/-- The query `statement.findMany({ where: { cardId, isPaid: false }, orderBy: { dueDate: 'asc' } })`
(razorpay.ts:100-106 and 389-397): the card's unpaid statements, earliest due
first. -/
def fetchUnpaid (db : Db) (cardId : Nat) : List Statement :=
  sortByDue (db.statements.filter (fun s => s.cardId == cardId && !s.isPaid))

/-- The statement-application loop of `processPayment` (razorpay.ts:399-419),
acting on the fetched unpaid statements in list order.  Returns the updated
rows together with the final `remainingAmount`.

```
let remainingAmount = Number(amount);
for (const statement of statements) {
  if (remainingAmount <= 0) break;
  if (remainingAmount >= Number(statement.balance)) {
    await tx.statement.update({ data: { isPaid: true, balance: 0 } });
    remainingAmount -= paymentToUse;
  } else {
    await tx.statement.update({ data: { balance: balance - remainingAmount } });
    remainingAmount = 0;
  }
}
```
-/
def applyToStatements (remaining : ℚ) : List Statement → List Statement × ℚ
  | [] => ([], remaining)
  | s :: rest =>
      if remaining ≤ 0 then (s :: rest, remaining)
      else if s.balance ≤ remaining then
        let res := applyToStatements (remaining - s.balance) rest
        ({ s with isPaid := true, balance := 0 } :: res.1, res.2)
      else
        let res := applyToStatements 0 rest
        ({ s with balance := s.balance - remaining } :: res.1, res.2)

/-- Number of `tx.statement.update` calls the loop issues: one per statement
reached while `remainingAmount > 0`. -/
def touchedCount (remaining : ℚ) : List Statement → Nat
  | [] => 0
  | s :: rest =>
      if remaining ≤ 0 then 0
      else if s.balance ≤ remaining then 1 + touchedCount (remaining - s.balance) rest
      else 1 + touchedCount 0 rest

/-- `normalizeStatus` (razorpay.ts:69-72): DB status to API lowercase. -/
def normalizeStatus : PayStatus → String
  | .PENDING => "pending"
  | .SUCCESS => "success"
  | .FAILED => "failed"

/-- Fault injected into one run of the settlement core, for the error-handling
claims: either no failure, or the k-th `tx.statement.update` of the
application loop throws, or the `prisma.activity.create` inside `logActivity`
throws. -/
inductive Fault where
  | noFault
  | stmtWrite (k : Nat)
  | activityWrite
deriving DecidableEq, Repr

/-- Whether this fault makes the audit-activity insert fail. -/
def Fault.hitsActivity : Fault → Bool
  | .activityWrite => true
  | _ => false

/-- `logActivity` (activityLogger.ts:15-38): inserts one Activity row through
the global prisma client; its own try/catch swallows any error, so on failure
it logs to the console and returns normally with no row written. -/
def logActivity (writeFails : Bool) (db : Db) : Db :=
  if writeFails then db else { db with activities := db.activities + 1 }

/-- Prisma's interactive `$transaction` (razorpay.ts:377-433), modelled from
its documented semantics: if the callback completes, its writes commit; if the
callback throws, every write made through the transaction client is rolled
back — the observable state is the pre-state — and the error is rethrown. -/
def prismaTransaction (db : Db) (body : Db → Except Unit Db) : Db × Option Unit :=
  match body db with
  | .ok db1 => (db1, none)
  | .error e => (db, some e)

/-- Overwrite the payment row bearing `paymentId` (prisma `payment.update`,
razorpay.ts:379-385). -/
def updatePaymentRow (db : Db) (paymentId : Nat) (updated : Payment) : Db :=
  { db with payments := db.payments.map (fun q => if q.id == paymentId then updated else q) }

/-- Write the rows produced by the application loop back over the Statement
table (the `tx.statement.update` calls, matched by primary key). -/
def writeBack (db : Db) (rows : List Statement) : Db :=
  { db with statements :=
      db.statements.map (fun s => (findFirst (fun t => t.id == s.id) rows).getD s) }

/-- The notification collaborator (createPaymentSuccessNotification /
createPaymentFailedNotification): one notification row. -/
def addNotification (db : Db) : Db :=
  { db with notifications := db.notifications + 1 }

/-- The statements the SUCCESS branch fetches: the unpaid statements of
`updatedPayment.cardId` (razorpay.ts:389-397); a null cardId matches no
statement row, since Statement.cardId is NOT NULL. -/
def successStatements (db : Db) (cardId : Option Nat) : List Statement :=
  match cardId with
  | none => []
  | some cid => fetchUnpaid db cid

/-- The callback passed to `prisma.$transaction` in `processPayment`
(razorpay.ts:377-433): update the payment row to the delivered status (prisma
`update` throws if no row has the given id), then on SUCCESS fetch the card's
unpaid statements oldest-due-first, run the application loop writing each
touched statement back, and finally emit the notification and the audit
activity.  The notification collaborator and `logActivity` are invoked inside
the callback, but `logActivity` writes through the global client and swallows
its own errors, so an `activityWrite` fault leaves no row and raises nothing. -/
def txBody (paymentId : Nat) (status : Outcome) (externalId : Option String)
    (amount : ℚ) (fault : Fault) (db : Db) : Except Unit Db :=
  match findFirst (fun p => p.id == paymentId) db.payments with
  | none => .error ()
  | some p =>
    let updated : Payment := { p with status := status.toStatus, externalId := externalId }
    let db1 : Db := updatePaymentRow db paymentId updated
    if status = .SUCCESS then
      let stmts := successStatements db1 updated.cardId
      let failsAt : Bool := match fault with
        | .stmtWrite k => decide (k < touchedCount amount stmts)
        | _ => false
      if failsAt then .error ()
      else
        .ok (logActivity fault.hitsActivity
          (addNotification (writeBack db1 (applyToStatements amount stmts).1)))
    else
      .ok (logActivity fault.hitsActivity (addNotification db1))

/-- `processPayment` (razorpay.ts:368-440): run the transaction above; on
error, log and rethrow (`throw error` at razorpay.ts:438), so the caller sees
the failure and the observable state is the rolled-back pre-state.  `last4`
and `userId` are threaded to the notification collaborator only. -/
def processPayment (paymentId : Nat) (status : Outcome) (last4 : String)
    (userId : Nat) (amount : ℚ) (externalId : Option String) (fault : Fault)
    (db : Db) : Db × Option Unit :=
  prismaTransaction db (txBody paymentId status externalId amount fault)

/-- Errors the webhook route can surface to `next(error)`. -/
inductive WebhookErr where
  | notFound
  | nullCardDeref
  | processingError
deriving DecidableEq, Repr

/-- `router.post('/webhook')` (razorpay.ts:335-360): look the payment up with
its card included; 404 if absent; then call
`processPayment(paymentId, status, payment.card.last4, payment.userId, payment.amount, externalId)`.
`payment.card` is null whenever `payment.cardId` is null (and when the linked
card row is gone), and the handler reads `.last4` off it with no null check,
so that request throws a TypeError before `processPayment` runs. -/
def webhookHandler (paymentId : Nat) (status : Outcome) (externalId : Option String)
    (fault : Fault) (db : Db) : Db × Option WebhookErr :=
  match findFirst (fun p => p.id == paymentId) db.payments with
  | none => (db, some .notFound)
  | some payment =>
    match payment.cardId.bind (fun cid => findFirst (fun c => c.id == cid) db.cards) with
    | none => (db, some .nullCardDeref)
    | some card =>
      match processPayment paymentId status card.last4 payment.userId payment.amount
          externalId fault db with
      | (db1, some _) => (db1, some .processingError)
      | (db1, none) => (db1, none)

/-- A payment-creation request after body parsing: `POST /api/payments` with
`{ cardId, amount, method }` plus the optional Idempotency-Key header. -/
structure CreateRequest where
  cardId : Nat
  amount : ℚ
  method : String
  idempotencyKey : Option String
deriving DecidableEq, Repr

/-- `createPaymentSchema` (razorpay.ts:47-51): cardId a positive integer,
amount positive and at most 1,000,000, method one of bank | card | instant.
The `validateBody` middleware rejects with 400 before the handler runs. -/
def createPaymentSchemaOk (req : CreateRequest) : Bool :=
  0 < req.cardId && 0 < req.amount && req.amount ≤ 1000000 &&
    (req.method == "bank" || req.method == "card" || req.method == "instant")

/-- Errors of the creation route: schema 400, NotFoundError, ForbiddenError,
ValidationError (razorpay.ts:91-112). -/
inductive CreateErr where
  | badRequest
  | notFoundCard
  | forbiddenInactive
  | validationExceeds
deriving DecidableEq, Repr

/-- The JSON `data` object both creation responses build
(razorpay.ts:129-140 and 178-189). -/
structure CreateResponse where
  paymentId : Nat
  amount : ℚ
  method : String
  status : String
  newBalance : ℚ
deriving DecidableEq, Repr

/-- The idempotency guard of the creation route (razorpay.ts:114-146): with
no Idempotency-Key header there is nothing to look up; with one, the
`payment.findFirst({ where: { idempotencyKey } })` call only works when the
Payment table has that column — otherwise prisma throws and the catch block
proceeds as if no match was found. -/
def idemLookup (db : Db) (key : Option String) : Option Payment :=
  match key with
  | none => none
  | some k =>
      if db.hasIdemKeyColumn then
        findFirst (fun p => p.idempotencyKey == some k) db.payments
      else none

/-- `router.post('/')` (razorpay.ts:78-193): schema validation, card ownership
and ACTIVE checks, outstanding-balance validation, the guarded idempotency
lookup, then creation of a PENDING payment and the immediate response.  The
deferred `setTimeout(processPayment, ...)` (razorpay.ts:167-173) runs outside
the request, so this step never applies statements and never waits for
resolution.  Every error path returns before any write, so the state component
is the input on those paths.  The idempotency lookup
`payment.findFirst({ where: { idempotencyKey } })` only succeeds when the
Payment table has that column; the shipped migrations do not add it, and in
that case prisma throws and the catch block (razorpay.ts:142-145) proceeds as
if no match was found.  The create call leaves the row's idempotencyKey unset
(the assignment at razorpay.ts:156-157 is commented out). -/
def createPayment (userId : Nat) (req : CreateRequest) (db : Db) :
    Db × Except CreateErr CreateResponse :=
  if !createPaymentSchemaOk req then (db, .error .badRequest)
  else
    match findFirst (fun c => c.id == req.cardId && c.userId == userId) db.cards with
    | none => (db, .error .notFoundCard)
    | some card =>
      if card.status ≠ .ACTIVE then (db, .error .forbiddenInactive)
      else
        let statements := fetchUnpaid db req.cardId
        let outstandingBalance := sumBalances statements
        if outstandingBalance < req.amount then (db, .error .validationExceeds)
        else
          match idemLookup db req.idempotencyKey with
          | some existing =>
              let freshStatements :=
                db.statements.filter (fun s => s.cardId == req.cardId && !s.isPaid)
              let freshOutstanding := sumBalances freshStatements
              (db, .ok { paymentId := existing.id, amount := existing.amount,
                         method := existing.method,
                         status := normalizeStatus existing.status,
                         newBalance := freshOutstanding })
          | none =>
              let payment : Payment :=
                { id := db.nextId, cardId := some req.cardId, userId := userId,
                  amount := req.amount, method := req.method, status := .PENDING,
                  externalId := none, idempotencyKey := none }
              let db1 : Db :=
                { db with payments := db.payments ++ [payment], nextId := db.nextId + 1 }
              (db1, .ok { paymentId := payment.id, amount := payment.amount,
                          method := payment.method,
                          status := normalizeStatus payment.status,
                          newBalance := outstandingBalance })

/-- Sum of the balances of a card's unpaid statements in the raw table order
(used to observe outstanding balance in theorems). -/
def outstandingOf (db : Db) (cardId : Nat) : ℚ :=
  sumBalances (db.statements.filter (fun s => s.cardId == cardId && !s.isPaid))

/-- Whether a route outcome is an error response. -/
def isError : Except ε α → Bool
  | .error _ => true
  | .ok _ => false

/-- Fixture: one ACTIVE card of user 1 with two unpaid statements, stored
Feb-first to exercise the due-date ordering, and one PENDING payment of 700
(the scenario of spec section 8, FIFO correctness / no double application). -/
def dbTwo : Db :=
  { cards := [{ id := 1, userId := 1, status := .ACTIVE, last4 := "4242" }],
    statements := [⟨2, 1, 41, 500, false⟩, ⟨1, 1, 10, 300, false⟩],
    payments := [{ id := 100, cardId := some 1, userId := 1, amount := 700,
                   method := "bank", status := .PENDING, externalId := none,
                   idempotencyKey := none }],
    activities := 0, notifications := 0, hasIdemKeyColumn := false, nextId := 101 }

/-- The row written by the full-payment branch of the application loop:
`{ isPaid: true, balance: 0 }` (razorpay.ts:406-409). -/
def paidOff (s : Statement) : Statement :=
  { s with isPaid := true, balance := 0 }

/-- Fixture: one ACTIVE card of user 1 with a single unpaid statement of
1,000 and no payments yet (idempotencyKey column absent, as in the shipped
migrations). -/
def dbIdem : Db :=
  { cards := [{ id := 1, userId := 1, status := .ACTIVE, last4 := "4242" }],
    statements := [⟨1, 1, 10, 1000, false⟩],
    payments := [], activities := 0, notifications := 0,
    hasIdemKeyColumn := false, nextId := 1 }

/-- The same fixture on a hypothetical schema that does have the
idempotencyKey column. -/
def dbIdemCol : Db :=
  { dbIdem with hasIdemKeyColumn := true }

/-- Fixture: a gateway payment whose cardId is null (as the razorpay/verify
route creates when the user has no stored card), plus an unrelated unpaid
statement. -/
def dbNull : Db :=
  { cards := [{ id := 1, userId := 1, status := .ACTIVE, last4 := "4242" }],
    statements := [⟨1, 1, 10, 100, false⟩],
    payments := [{ id := 7, cardId := none, userId := 1, amount := 50,
                   method := "razorpay", status := .SUCCESS, externalId := none,
                   idempotencyKey := none }],
    activities := 0, notifications := 0, hasIdemKeyColumn := false, nextId := 8 }

/-- Fixture: one ACTIVE card of user 1 with a single unpaid statement of
2,000,000 — outstanding balance far above the schema's amount cap. -/
def dbBig : Db :=
  { cards := [{ id := 1, userId := 1, status := .ACTIVE, last4 := "4242" }],
    statements := [⟨1, 1, 10, 2000000, false⟩],
    payments := [], activities := 0, notifications := 0,
    hasIdemKeyColumn := false, nextId := 1 }

/-- Request of 1,000,001 against dbBig: within the outstanding balance but
above the creation schema's 1,000,000 cap. -/
def reqCap : CreateRequest :=
  { cardId := 1, amount := 1000001, method := "bank", idempotencyKey := none }

/-- A well-formed request carrying an Idempotency-Key header. -/
def reqK : CreateRequest :=
  { cardId := 1, amount := 400, method := "bank", idempotencyKey := some "k" }

/-- A well-formed request without an Idempotency-Key header. -/
def reqPlain : CreateRequest :=
  { cardId := 1, amount := 700, method := "bank", idempotencyKey := none }

end CreditFlow

namespace CreditFlow

theorem findFirst_eq_none {p : α → Bool} {l : List α} :
    findFirst p l = none ↔ ∀ a ∈ l, p a = false := by
  induction l with
  | nil => simp [findFirst]
  | cons a l ih =>
      by_cases h : p a <;> simp [findFirst, h, ih]

theorem findFirst_some {p : α → Bool} {l : List α} {a : α}
    (h : findFirst p l = some a) : a ∈ l ∧ p a = true := by
  induction l with
  | nil => simp [findFirst] at h
  | cons b l ih =>
      by_cases hb : p b
      · simp [findFirst, hb] at h
        subst h
        exact ⟨List.mem_cons_self b l, hb⟩
      · simp [findFirst, hb] at h
        rcases ih h with ⟨hmem, hp⟩
        exact ⟨List.mem_cons_of_mem b hmem, hp⟩

theorem sumBalances_nil : sumBalances [] = 0 := rfl

theorem sumBalances_aux (l : List Statement) (a : ℚ) :
    l.foldl (fun acc s => acc + s.balance) a = a + sumBalances l := by
  induction l generalizing a with
  | nil => simp [sumBalances]
  | cons s rest ih =>
      simp only [sumBalances, List.foldl_cons] at *
      rw [ih (a + s.balance), ih (0 + s.balance)]
      ring

theorem sumBalances_cons (s : Statement) (l : List Statement) :
    sumBalances (s :: l) = s.balance + sumBalances l := by
  show (s :: l).foldl (fun acc t => acc + t.balance) 0 = s.balance + sumBalances l
  rw [List.foldl_cons, sumBalances_aux, zero_add]

theorem sumBalances_nonneg {l : List Statement}
    (h : ∀ s ∈ l, 0 ≤ s.balance) : 0 ≤ sumBalances l := by
  induction l with
  | nil => simp [sumBalances]
  | cons s rest ih =>
      rw [sumBalances_cons]
      have hs := h s (List.mem_cons_self s rest)
      have hrest := ih (fun t ht => h t (List.mem_cons_of_mem s ht))
      linarith

theorem applyToStatements_nonpos (r : ℚ) (l : List Statement) (h : r ≤ 0) :
    applyToStatements r l = (l, r) := by
  cases l with
  | nil => simp [applyToStatements]
  | cons s rest => simp [applyToStatements, h]

theorem applyToStatements_sum (r : ℚ) (l : List Statement) (hr : 0 ≤ r)
    (hb : ∀ s ∈ l, 0 ≤ s.balance) :
    sumBalances l - sumBalances (applyToStatements r l).1 = min r (sumBalances l) := by
  induction l generalizing r with
  | nil =>
      simp [applyToStatements, sumBalances, min_eq_right hr]
  | cons s rest ih =>
      have hs := hb s (List.mem_cons_self s rest)
      have hbrest : ∀ t ∈ rest, 0 ≤ t.balance :=
        fun t ht => hb t (List.mem_cons_of_mem s ht)
      have hsum : 0 ≤ sumBalances rest := sumBalances_nonneg hbrest
      by_cases h0 : r ≤ 0
      · have hr0 : r = 0 := le_antisymm h0 hr
        subst hr0
        rw [applyToStatements_nonpos 0 (s :: rest) le_rfl]
        have : (0 : ℚ) ≤ sumBalances (s :: rest) := sumBalances_nonneg hb
        simp [min_eq_left this]
      · by_cases hfull : s.balance ≤ r
        · have ih' := ih (r - s.balance) (by linarith) hbrest
          simp only [applyToStatements, if_neg h0, if_pos hfull]
          rw [sumBalances_cons, sumBalances_cons]
          simp only
          rcases le_total (r - s.balance) (sumBalances rest) with hc | hc
          · rw [min_eq_left hc] at ih'
            rw [min_eq_left (by linarith : r ≤ s.balance + sumBalances rest)]
            linarith
          · rw [min_eq_right hc] at ih'
            rw [min_eq_right (by linarith : s.balance + sumBalances rest ≤ r)]
            linarith
        · push_neg at hfull
          simp only [applyToStatements, if_neg h0, if_neg (not_le.mpr hfull)]
          rw [applyToStatements_nonpos 0 rest le_rfl]
          rw [sumBalances_cons, sumBalances_cons]
          simp only
          rw [min_eq_left (by linarith : r ≤ s.balance + sumBalances rest)]
          linarith

theorem applyToStatements_nonneg (r : ℚ) (l : List Statement)
    (hb : ∀ s ∈ l, 0 ≤ s.balance) :
    ∀ t ∈ (applyToStatements r l).1, 0 ≤ t.balance := by
  induction l generalizing r with
  | nil => simp [applyToStatements]
  | cons s rest ih =>
      have hs := hb s (List.mem_cons_self s rest)
      have hbrest : ∀ t ∈ rest, 0 ≤ t.balance :=
        fun t ht => hb t (List.mem_cons_of_mem s ht)
      by_cases h0 : r ≤ 0
      · rw [applyToStatements_nonpos r (s :: rest) h0]
        exact hb
      · by_cases hfull : s.balance ≤ r
        · simp only [applyToStatements, if_neg h0, if_pos hfull]
          intro t ht
          rcases List.mem_cons.mp ht with h | h
          · subst h; simp
          · exact ih (r - s.balance) hbrest t h
        · push_neg at hfull
          simp only [applyToStatements, if_neg h0, if_neg (not_le.mpr hfull)]
          rw [applyToStatements_nonpos 0 rest le_rfl]
          intro t ht
          rcases List.mem_cons.mp ht with h | h
          · subst h
            simp only
            push_neg at h0
            linarith
          · exact hbrest t h

theorem applyToStatements_isPaid (r : ℚ) (l : List Statement)
    (hinv : ∀ s ∈ l, s.isPaid = true → s.balance = 0) :
    ∀ t ∈ (applyToStatements r l).1, t.isPaid = true → t.balance = 0 := by
  induction l generalizing r with
  | nil => simp [applyToStatements]
  | cons s rest ih =>
      have hinvrest : ∀ t ∈ rest, t.isPaid = true → t.balance = 0 :=
        fun t ht => hinv t (List.mem_cons_of_mem s ht)
      by_cases h0 : r ≤ 0
      · rw [applyToStatements_nonpos r (s :: rest) h0]
        exact hinv
      · by_cases hfull : s.balance ≤ r
        · simp only [applyToStatements, if_neg h0, if_pos hfull]
          intro t ht
          rcases List.mem_cons.mp ht with h | h
          · subst h; intro _; rfl
          · exact ih (r - s.balance) hinvrest t h
        · push_neg at hfull
          simp only [applyToStatements, if_neg h0, if_neg (not_le.mpr hfull)]
          rw [applyToStatements_nonpos 0 rest le_rfl]
          intro t ht
          rcases List.mem_cons.mp ht with h | h
          · subst h
            simp only
            intro hpaid
            have := hinv s (List.mem_cons_self s rest) hpaid
            push_neg at h0
            exfalso
            linarith
          · exact hinvrest t h

theorem applyToStatements_fifo (l : List Statement) (r : ℚ) (i j : Nat)
    (hij : i < j)
    (hj : ((applyToStatements r l).1)[j]? ≠ l[j]?) :
    ((applyToStatements r l).1)[i]? = (l[i]?).map paidOff := by
  induction l generalizing r i j with
  | nil => simp [applyToStatements] at hj
  | cons s rest ih =>
      by_cases h0 : r ≤ 0
      · rw [applyToStatements_nonpos r (s :: rest) h0] at hj
        exact absurd rfl hj
      · by_cases hfull : s.balance ≤ r
        · simp only [applyToStatements, if_neg h0, if_pos hfull] at hj ⊢
          cases j with
          | zero => omega
          | succ j' =>
              simp only [List.getElem?_cons_succ] at hj
              by_cases h2 : r - s.balance ≤ 0
              · rw [applyToStatements_nonpos (r - s.balance) rest h2] at hj
                exact absurd rfl hj
              · cases i with
                | zero => simp [paidOff]
                | succ i' =>
                    simp only [List.getElem?_cons_succ]
                    exact ih (r - s.balance) i' j' (by omega) hj
        · push_neg at hfull
          simp only [applyToStatements, if_neg h0, if_neg (not_le.mpr hfull)] at hj
          rw [applyToStatements_nonpos 0 rest le_rfl] at hj
          cases j with
          | zero => omega
          | succ j' =>
              simp only [List.getElem?_cons_succ] at hj
              exact absurd rfl hj

theorem mem_insertByDue {a s : Statement} {l : List Statement} :
    a ∈ insertByDue s l ↔ a = s ∨ a ∈ l := by
  induction l with
  | nil => simp [insertByDue]
  | cons t ts ih =>
      by_cases h : s.dueDate ≤ t.dueDate
      · simp [insertByDue, h]
      · simp [insertByDue, h, ih]
        tauto

theorem mem_sortByDue {a : Statement} {l : List Statement} :
    a ∈ sortByDue l ↔ a ∈ l := by
  induction l with
  | nil => simp [sortByDue]
  | cons s ss ih => simp [sortByDue, mem_insertByDue, ih]

theorem fetchUnpaid_mem {db : Db} {cardId : Nat} {s : Statement}
    (h : s ∈ fetchUnpaid db cardId) : s ∈ db.statements ∧ s.isPaid = false := by
  rw [fetchUnpaid, mem_sortByDue, List.mem_filter] at h
  rcases h with ⟨hmem, hcond⟩
  simp only [Bool.and_eq_true, Bool.not_eq_true'] at hcond
  exact ⟨hmem, hcond.2⟩

theorem logActivity_statements (b : Bool) (db : Db) :
    (logActivity b db).statements = db.statements := by
  cases b <;> rfl

theorem logActivity_payments (b : Bool) (db : Db) :
    (logActivity b db).payments = db.payments := by
  cases b <;> rfl

theorem logActivity_cards (b : Bool) (db : Db) :
    (logActivity b db).cards = db.cards := by
  cases b <;> rfl

theorem writeBack_inv (db : Db) (rows : List Statement)
    (hdb : ∀ s ∈ db.statements, s.isPaid = true → s.balance = 0)
    (hrows : ∀ t ∈ rows, t.isPaid = true → t.balance = 0) :
    ∀ s ∈ (writeBack db rows).statements, s.isPaid = true → s.balance = 0 := by
  intro s hs
  simp only [writeBack] at hs
  rcases List.mem_map.mp hs with ⟨s0, hs0, rfl⟩
  cases hf : findFirst (fun t => t.id == s0.id) rows with
  | none => simp only [hf, Option.getD_none]; exact hdb s0 hs0
  | some t => simp only [hf, Option.getD_some]; exact hrows t (findFirst_some hf).1

theorem applied_inv (amount : ℚ) (cardId : Option Nat) (db : Db) :
    ∀ t ∈ (applyToStatements amount (successStatements db cardId)).1,
      t.isPaid = true → t.balance = 0 := by
  cases cardId with
  | none => simp [successStatements, applyToStatements]
  | some cid =>
      refine applyToStatements_isPaid amount _ ?_
      intro u hu hupaid
      have h := (fetchUnpaid_mem hu).2
      rw [hupaid] at h
      cases h

theorem txBody_ok_inv (paymentId : Nat) (status : Outcome) (externalId : Option String)
    (amount : ℚ) (fault : Fault) (db db1 : Db)
    (hinv : ∀ s ∈ db.statements, s.isPaid = true → s.balance = 0)
    (hok : txBody paymentId status externalId amount fault db = .ok db1) :
    ∀ s ∈ db1.statements, s.isPaid = true → s.balance = 0 := by
  cases hfind : findFirst (fun p => p.id == paymentId) db.payments with
  | none => simp [txBody, hfind] at hok
  | some p =>
      simp only [txBody, hfind] at hok
      split at hok
      · split at hok
        · cases hok
        · cases hok
          rw [logActivity_statements]
          exact writeBack_inv _ _ hinv (applied_inv _ _ _)
      · cases hok
        rw [logActivity_statements]
        exact hinv

/-- C8: every operation of the settlement core preserves the Statement
invariant that isPaid implies a zero balance: the application loop inside
`processPayment` sets isPaid true only together with balance 0, and a partial
payment that leaves a positive balance never sets isPaid, so any database
satisfying the invariant still satisfies it after `processPayment`, whatever
the outcome, fault or arguments. -/
theorem c8_paid_implies_zero_balance (paymentId : Nat) (status : Outcome)
    (last4 : String) (userId : Nat) (amount : ℚ) (externalId : Option String)
    (fault : Fault) (db : Db)
    (hinv : ∀ s ∈ db.statements, s.isPaid = true → s.balance = 0) :
    ∀ s ∈ (processPayment paymentId status last4 userId amount externalId
        fault db).1.statements, s.isPaid = true → s.balance = 0 := by
  unfold processPayment prismaTransaction
  cases hbody : txBody paymentId status externalId amount fault db with
  | error e => simpa using hinv
  | ok db1 => simpa using txBody_ok_inv _ _ _ _ _ _ _ hinv hbody

/-- C8 witness: the invariant holds of the two-statement fixture and is
preserved by a concrete SUCCESS resolution over it. -/
theorem c8_witness :
    (∀ s ∈ dbTwo.statements, s.isPaid = true → s.balance = 0) ∧
    (∀ s ∈ (processPayment 100 .SUCCESS "4242" 1 700 none .noFault
        dbTwo).1.statements, s.isPaid = true → s.balance = 0) :=
  ⟨by simp [dbTwo], c8_paid_implies_zero_balance 100 .SUCCESS "4242" 1 700 none
    .noFault dbTwo (by simp [dbTwo])⟩

/-- C2: on a payment's transition to SUCCESS the amount is applied to the
card's unpaid statements in ascending due-date order, fully paying earlier-due
statements before touching later ones.  First conjunct: on the spec's concrete
scenario (statements due day 10 with balance 300 and day 41 with balance 500,
stored Feb-first; SUCCESS payment of 700) the resolution leaves the day-10
statement at balance 0 with isPaid true and the day-41 statement at balance
100 with isPaid false.  Second conjunct: in general, whenever the application
loop changes the row at position j of the due-date-ordered list, every
earlier row has been fully paid off (isPaid true, balance 0). -/
theorem c2_fifo_by_due_date :
    ((webhookHandler 100 .SUCCESS none .noFault dbTwo).2 = none ∧
     (webhookHandler 100 .SUCCESS none .noFault dbTwo).1.statements =
       [⟨2, 1, 41, 100, false⟩, ⟨1, 1, 10, 0, true⟩]) ∧
    ∀ (l : List Statement) (r : ℚ) (i j : Nat), i < j →
      ((applyToStatements r l).1)[j]? ≠ l[j]? →
      ((applyToStatements r l).1)[i]? = (l[i]?).map paidOff := by
  constructor
  · constructor <;>
      norm_num [webhookHandler, processPayment, prismaTransaction, txBody, findFirst,
        updatePaymentRow, writeBack, addNotification, successStatements, fetchUnpaid,
        sortByDue, insertByDue, applyToStatements, touchedCount, logActivity,
        Fault.hitsActivity, dbTwo, Outcome.toStatus, List.filter_cons, Option.getD]
  · exact fun l r i j hij hj => applyToStatements_fifo l r i j hij hj

/-- C2 witness: the general FIFO conjunct instantiated on the spec's
two-statement list with a 700 payment: position 1 is touched, so position 0
is fully paid off. -/
theorem c2_witness :
    ((0 < 1 ∧
      ((applyToStatements 700 [⟨1, 1, 10, 300, false⟩, ⟨2, 1, 41, 500, false⟩]).1)[1]? ≠
        (([⟨1, 1, 10, 300, false⟩, ⟨2, 1, 41, 500, false⟩] : List Statement))[1]?) ∧
     ((applyToStatements 700 [⟨1, 1, 10, 300, false⟩, ⟨2, 1, 41, 500, false⟩]).1)[0]? =
       ((([⟨1, 1, 10, 300, false⟩, ⟨2, 1, 41, 500, false⟩] : List Statement))[0]?).map paidOff) :=
  ⟨⟨by norm_num, by norm_num [applyToStatements]⟩,
   c2_fifo_by_due_date.2 [⟨1, 1, 10, 300, false⟩, ⟨2, 1, 41, 500, false⟩] 700 0 1
     (by norm_num) (by norm_num [applyToStatements])⟩

/-- C3: for a SUCCESS resolution of amount A over any list of unpaid
statements with non-negative balances, the total balance reduction equals
min(A, sum of balances); no statement balance ever becomes negative; and on
the spec's overpay scenario (single statement of 200, payment of 500) the
statement ends at balance 0 with isPaid true while the leftover 300 is merely
returned by the loop and discarded by `processPayment`, never applied. -/
theorem c3_overpay_clamp (r : ℚ) (l : List Statement) (hr : 0 ≤ r)
    (hb : ∀ s ∈ l, 0 ≤ s.balance) :
    (sumBalances l - sumBalances (applyToStatements r l).1 = min r (sumBalances l)) ∧
    (∀ t ∈ (applyToStatements r l).1, 0 ≤ t.balance) ∧
    (applyToStatements 500 [⟨1, 1, 10, 200, false⟩] = ([⟨1, 1, 10, 0, true⟩], 300)) :=
  ⟨applyToStatements_sum r l hr hb, applyToStatements_nonneg r l hb,
   by norm_num [applyToStatements]⟩

/-- C3 witness: instantiated on the overpay scenario itself — the reduction
over a single 200-balance statement under a 500 payment is min 500 200 = 200. -/
theorem c3_witness :
    (((0:ℚ) ≤ 500 ∧ ∀ s ∈ ([⟨1, 1, 10, 200, false⟩] : List Statement), 0 ≤ s.balance) ∧
     (sumBalances [⟨1, 1, 10, 200, false⟩] -
        sumBalances (applyToStatements 500 [⟨1, 1, 10, 200, false⟩]).1 =
          min 500 (sumBalances [⟨1, 1, 10, 200, false⟩])) ∧
     (∀ t ∈ (applyToStatements 500 [⟨1, 1, 10, 200, false⟩]).1, 0 ≤ t.balance) ∧
     (applyToStatements 500 [⟨1, 1, 10, 200, false⟩] = ([⟨1, 1, 10, 0, true⟩], 300))) :=
  ⟨⟨by norm_num, by norm_num⟩,
   c3_overpay_clamp 500 [⟨1, 1, 10, 200, false⟩] (by norm_num) (by norm_num)⟩

/-- C1: `processPayment` has no terminal-state guard, so a duplicate SUCCESS
webhook is NOT a no-op — on the two-statement fixture the first delivery
reduces the outstanding balance from 800 to 100 and leaves the payment
SUCCESS (terminal), and the second delivery of the very same webhook runs the
application loop again, reducing the balance once more to 0 and mutating the
statements a second time. -/
theorem c1_duplicate_success_double_applies :
    ((webhookHandler 100 .SUCCESS none .noFault dbTwo).2 = none) ∧
    ((webhookHandler 100 .SUCCESS none .noFault dbTwo).1.payments =
      [{ id := 100, cardId := some 1, userId := 1, amount := 700, method := "bank",
         status := .SUCCESS, externalId := none, idempotencyKey := none }]) ∧
    (outstandingOf (webhookHandler 100 .SUCCESS none .noFault dbTwo).1 1 = 100) ∧
    ((webhookHandler 100 .SUCCESS none .noFault
        (webhookHandler 100 .SUCCESS none .noFault dbTwo).1).2 = none) ∧
    (outstandingOf (webhookHandler 100 .SUCCESS none .noFault
        (webhookHandler 100 .SUCCESS none .noFault dbTwo).1).1 1 = 0) ∧
    ((webhookHandler 100 .SUCCESS none .noFault
        (webhookHandler 100 .SUCCESS none .noFault dbTwo).1).1.statements ≠
      (webhookHandler 100 .SUCCESS none .noFault dbTwo).1.statements) := by
  norm_num [webhookHandler, processPayment, prismaTransaction, txBody, findFirst,
    updatePaymentRow, writeBack, addNotification, successStatements, fetchUnpaid,
    sortByDue, insertByDue, applyToStatements, touchedCount, logActivity,
    Fault.hitsActivity, dbTwo, outstandingOf, sumBalances, Outcome.toStatus,
    List.filter_cons, Option.getD]

/-- C5: the creation route never persists the client's idempotency key (the
schema has no such column and the assignment is commented out), so two
identical requests bearing the same Idempotency-Key create two distinct
PENDING payments — both on the real schema and even on a hypothetical schema
that has the column. -/
theorem c5_duplicate_key_two_payments :
    ((createPayment 1 reqK dbIdem).2 = .ok
      { paymentId := 1, amount := 400, method := "bank", status := "pending",
        newBalance := 1000 }) ∧
    ((createPayment 1 reqK (createPayment 1 reqK dbIdem).1).2 = .ok
      { paymentId := 2, amount := 400, method := "bank", status := "pending",
        newBalance := 1000 }) ∧
    ((createPayment 1 reqK (createPayment 1 reqK dbIdem).1).1.payments.length = 2) ∧
    ((createPayment 1 reqK (createPayment 1 reqK dbIdemCol).1).1.payments.length = 2) := by
  norm_num [createPayment, createPaymentSchemaOk, idemLookup, findFirst, fetchUnpaid,
    sortByDue, insertByDue, sumBalances, normalizeStatus, dbIdem, dbIdemCol, reqK,
    List.filter_cons]

/-- C10: a webhook resolution aimed at a payment whose cardId is null reads
`payment.card.last4` off a null `payment.card` with no null check
(razorpay.ts:354), so the request errors out before `processPayment` runs:
no payment-status update and no statement application happens. -/
theorem c10_null_card_deref (paymentId : Nat) (status : Outcome)
    (externalId : Option String) (fault : Fault) (db : Db) (p : Payment)
    (hp : findFirst (fun q => q.id == paymentId) db.payments = some p)
    (hnull : p.cardId = none) :
    webhookHandler paymentId status externalId fault db = (db, some .nullCardDeref) := by
  simp [webhookHandler, hp, hnull]

/-- C10 witness: the null-card fixture's payment 7 has no cardId, and the
webhook on it returns the error with the state unchanged. -/
theorem c10_witness :
    (findFirst (fun q => q.id == 7) dbNull.payments =
      some { id := 7, cardId := none, userId := 1, amount := 50, method := "razorpay",
             status := .SUCCESS, externalId := none, idempotencyKey := none }) ∧
    webhookHandler 7 .SUCCESS none .noFault dbNull = (dbNull, some .nullCardDeref) :=
  ⟨by norm_num [dbNull, findFirst],
   c10_null_card_deref 7 .SUCCESS none .noFault dbNull
     { id := 7, cardId := none, userId := 1, amount := 50, method := "razorpay",
       status := .SUCCESS, externalId := none, idempotencyKey := none }
     (by norm_num [dbNull, findFirst]) rfl⟩

theorem fetchUnpaid_updatePaymentRow (db : Db) (pid : Nat) (u : Payment) (cid : Nat) :
    fetchUnpaid (updatePaymentRow db pid u) cid = fetchUnpaid db cid := rfl

/-- C9: side-effect failure is isolated from settlement: when the
audit-activity insert fails during a SUCCESS resolution, `logActivity` catches
the error itself, so `processPayment` returns no error, the payment row and
the statement rows end exactly as in the fault-free run (no rollback), and
the only difference is that no Activity row is written. -/
theorem c9_activity_failure_isolated (paymentId : Nat) (last4 : String)
    (userId : Nat) (amount : ℚ) (externalId : Option String) (db : Db) (p : Payment)
    (hp : findFirst (fun q => q.id == paymentId) db.payments = some p) :
    ((processPayment paymentId .SUCCESS last4 userId amount externalId
        .activityWrite db).2 = none) ∧
    ((processPayment paymentId .SUCCESS last4 userId amount externalId
        .activityWrite db).1.payments =
      (processPayment paymentId .SUCCESS last4 userId amount externalId
        .noFault db).1.payments) ∧
    ((processPayment paymentId .SUCCESS last4 userId amount externalId
        .activityWrite db).1.statements =
      (processPayment paymentId .SUCCESS last4 userId amount externalId
        .noFault db).1.statements) ∧
    ((processPayment paymentId .SUCCESS last4 userId amount externalId
        .activityWrite db).1.activities = db.activities) ∧
    ((processPayment paymentId .SUCCESS last4 userId amount externalId
        .noFault db).1.activities = db.activities + 1) := by
  simp [processPayment, prismaTransaction, txBody, hp, logActivity,
    Fault.hitsActivity, addNotification, writeBack, updatePaymentRow]

/-- C9 witness: instantiated on the two-statement fixture's payment 100. -/
theorem c9_witness :
    (findFirst (fun q => q.id == 100) dbTwo.payments =
      some { id := 100, cardId := some 1, userId := 1, amount := 700, method := "bank",
             status := .PENDING, externalId := none, idempotencyKey := none }) ∧
    (((processPayment 100 .SUCCESS "4242" 1 700 none .activityWrite dbTwo).2 = none) ∧
     ((processPayment 100 .SUCCESS "4242" 1 700 none .activityWrite dbTwo).1.payments =
       (processPayment 100 .SUCCESS "4242" 1 700 none .noFault dbTwo).1.payments) ∧
     ((processPayment 100 .SUCCESS "4242" 1 700 none .activityWrite dbTwo).1.statements =
       (processPayment 100 .SUCCESS "4242" 1 700 none .noFault dbTwo).1.statements) ∧
     ((processPayment 100 .SUCCESS "4242" 1 700 none .activityWrite dbTwo).1.activities =
       dbTwo.activities) ∧
     ((processPayment 100 .SUCCESS "4242" 1 700 none .noFault dbTwo).1.activities =
       dbTwo.activities + 1)) :=
  ⟨by norm_num [dbTwo, findFirst],
   c9_activity_failure_isolated 100 "4242" 1 700 none dbTwo
     { id := 100, cardId := some 1, userId := 1, amount := 700, method := "bank",
       status := .PENDING, externalId := none, idempotencyKey := none }
     (by norm_num [dbTwo, findFirst])⟩

/-- C6: a storage failure in any of the statement writes of the application
loop aborts the whole transaction: `processPayment` surfaces the error and
the observable database — the payment row included — is exactly the
pre-state, and the webhook handler forwards the error to its caller. -/
theorem c6_statement_write_abort (paymentId : Nat) (externalId : Option String)
    (last4 : String) (userId : Nat) (k : Nat) (db : Db) (p : Payment) (cid : Nat)
    (card : Card)
    (hp : findFirst (fun q => q.id == paymentId) db.payments = some p)
    (hcid : p.cardId = some cid)
    (hcard : findFirst (fun c => c.id == cid) db.cards = some card)
    (hk : k < touchedCount p.amount (fetchUnpaid db cid)) :
    (processPayment paymentId .SUCCESS last4 userId p.amount externalId
       (.stmtWrite k) db = (db, some ())) ∧
    (webhookHandler paymentId .SUCCESS externalId (.stmtWrite k) db =
       (db, some .processingError)) := by
  have h1 : processPayment paymentId .SUCCESS last4 userId p.amount externalId
      (.stmtWrite k) db = (db, some ()) := by
    simp [processPayment, prismaTransaction, txBody, hp, hcid, successStatements,
      fetchUnpaid_updatePaymentRow, hk]
  refine ⟨h1, ?_⟩
  simp only [webhookHandler, hp, hcid, Option.some_bind, hcard]
  rw [show processPayment paymentId .SUCCESS card.last4 p.userId p.amount externalId
      (.stmtWrite k) db = (db, some ()) from by
    simp [processPayment, prismaTransaction, txBody, hp, hcid, successStatements,
      fetchUnpaid_updatePaymentRow, hk]]

/-- C6 witness: failing the first statement write of the two-write run on the
two-statement fixture rolls everything back and surfaces the error. -/
theorem c6_witness :
    ((findFirst (fun q => q.id == 100) dbTwo.payments =
       some { id := 100, cardId := some 1, userId := 1, amount := 700, method := "bank",
              status := .PENDING, externalId := none, idempotencyKey := none }) ∧
     (findFirst (fun c => c.id == 1) dbTwo.cards =
       some { id := 1, userId := 1, status := .ACTIVE, last4 := "4242" }) ∧
     0 < touchedCount 700 (fetchUnpaid dbTwo 1)) ∧
    ((processPayment 100 .SUCCESS "4242" 1 700 none (.stmtWrite 0) dbTwo =
       (dbTwo, some ())) ∧
     (webhookHandler 100 .SUCCESS none (.stmtWrite 0) dbTwo =
       (dbTwo, some .processingError))) :=
  ⟨⟨by norm_num [dbTwo, findFirst],
    by norm_num [dbTwo, findFirst],
    by norm_num [dbTwo, fetchUnpaid, sortByDue, insertByDue, touchedCount,
      List.filter_cons]⟩,
   c6_statement_write_abort 100 none "4242" 1 0 dbTwo
     { id := 100, cardId := some 1, userId := 1, amount := 700, method := "bank",
       status := .PENDING, externalId := none, idempotencyKey := none }
     1 { id := 1, userId := 1, status := .ACTIVE, last4 := "4242" }
     (by norm_num [dbTwo, findFirst]) rfl
     (by norm_num [dbTwo, findFirst])
     (by norm_num [dbTwo, fetchUnpaid, sortByDue, insertByDue, touchedCount,
       List.filter_cons])⟩

/-- C7: when the creation route takes the fresh-creation path (no
Idempotency-Key header) and succeeds, it persists exactly one new Payment row
with status PENDING and responds immediately with status "pending" and the
pre-payment outstanding balance; the statements are untouched, so that
balance is also the post-call outstanding balance, and the new row is still
PENDING when the handler returns — resolution runs later, outside the
request. -/
theorem c7_creation_returns_pending (userId : Nat) (req : CreateRequest) (db : Db)
    (resp : CreateResponse)
    (hkey : req.idempotencyKey = none)
    (hok : (createPayment userId req db).2 = .ok resp) :
    resp.status = "pending" ∧
    resp.newBalance = sumBalances (fetchUnpaid db req.cardId) ∧
    resp.paymentId = db.nextId ∧
    ((createPayment userId req db).1.statements = db.statements) ∧
    ((createPayment userId req db).1.payments = db.payments ++
      [{ id := db.nextId, cardId := some req.cardId, userId := userId,
         amount := req.amount, method := req.method, status := .PENDING,
         externalId := none, idempotencyKey := none }]) := by
  by_cases h1 : createPaymentSchemaOk req
  · cases h2 : findFirst (fun c => c.id == req.cardId && c.userId == userId) db.cards with
    | none => simp [createPayment, h1, h2] at hok
    | some card =>
        by_cases h3 : card.status = CardStatus.ACTIVE
        · by_cases h4 : sumBalances (fetchUnpaid db req.cardId) < req.amount
          · simp [createPayment, h1, h2, h3, h4] at hok
          · simp [createPayment, h1, h2, h3, h4, hkey, idemLookup] at hok
            subst hok
            simp [createPayment, h1, h2, h3, h4, hkey, idemLookup, normalizeStatus]
        · simp [createPayment, h1, h2, h3] at hok
  · simp [createPayment, h1] at hok

/-- C7 witness: a plain request of 700 against the two-statement fixture. -/
theorem c7_witness :
    (reqPlain.idempotencyKey = none ∧
     (createPayment 1 reqPlain dbTwo).2 = .ok
       { paymentId := 101, amount := 700, method := "bank", status := "pending",
         newBalance := 800 }) ∧
    (({ paymentId := 101, amount := 700, method := "bank", status := "pending",
        newBalance := (800:ℚ) } : CreateResponse).status = "pending" ∧
     ({ paymentId := 101, amount := 700, method := "bank", status := "pending",
        newBalance := (800:ℚ) } : CreateResponse).newBalance =
          sumBalances (fetchUnpaid dbTwo reqPlain.cardId) ∧
     ({ paymentId := 101, amount := 700, method := "bank", status := "pending",
        newBalance := (800:ℚ) } : CreateResponse).paymentId = dbTwo.nextId ∧
     ((createPayment 1 reqPlain dbTwo).1.statements = dbTwo.statements) ∧
     ((createPayment 1 reqPlain dbTwo).1.payments = dbTwo.payments ++
       [{ id := dbTwo.nextId, cardId := some reqPlain.cardId, userId := 1,
          amount := reqPlain.amount, method := reqPlain.method, status := .PENDING,
          externalId := none, idempotencyKey := none }])) :=
  ⟨⟨rfl, by norm_num [createPayment, createPaymentSchemaOk, idemLookup, findFirst,
      fetchUnpaid, sortByDue, insertByDue, sumBalances, normalizeStatus, dbTwo,
      reqPlain, List.filter_cons]⟩,
   c7_creation_returns_pending 1 reqPlain dbTwo
     { paymentId := 101, amount := 700, method := "bank", status := "pending",
       newBalance := 800 }
     rfl
     (by norm_num [createPayment, createPaymentSchemaOk, idemLookup, findFirst,
       fetchUnpaid, sortByDue, insertByDue, sumBalances, normalizeStatus, dbTwo,
       reqPlain, List.filter_cons])⟩

/-- C4 counterexample: a request of 1,000,001 against an ACTIVE owned card
with outstanding balance 2,000,000 satisfies every condition the claim allows
(positive, within the outstanding balance, active owned card) and is still
rejected — by the creation schema's 1,000,000 amount cap, a rejection cause
the claim's "exactly when" list omits. -/
theorem c4_counterexample :
    (isError (createPayment 1 reqCap dbBig).2 = true) ∧
    (0 < reqCap.amount) ∧
    (reqCap.amount ≤ sumBalances (fetchUnpaid dbBig reqCap.cardId)) ∧
    (∃ c ∈ dbBig.cards, c.id = reqCap.cardId ∧ c.userId = 1 ∧
       c.status = CardStatus.ACTIVE) :=
  ⟨by norm_num [createPayment, createPaymentSchemaOk, isError, reqCap, dbBig],
   by norm_num [reqCap],
   by norm_num [reqCap, dbBig, fetchUnpaid, sortByDue, insertByDue, sumBalances,
     List.filter_cons],
   ⟨{ id := 1, userId := 1, status := .ACTIVE, last4 := "4242" },
    by norm_num [dbBig], rfl, rfl, rfl⟩⟩

/-- C4 (amended): on a well-formed card table (positive, pairwise-distinct
ids), payment creation is rejected — with no record created, the state
unchanged — exactly when the request fails the creation schema (amount not
positive, amount above the 1,000,000 cap, or a method other than
bank/card/instant), or no card with the requested id belongs to the
requesting user, or that card is not ACTIVE, or the amount exceeds the sum of
the card's unpaid statement balances (with zero unpaid statements that sum is
0, so any positive amount is rejected; an amount exactly equal to the sum
passes this check). -/
theorem c4_validation_boundary (userId : Nat) (req : CreateRequest) (db : Db)
    (hpos : ∀ c ∈ db.cards, 0 < c.id)
    (hnd : (db.cards.map Card.id).Nodup) :
    ((isError (createPayment userId req db).2 = true) ↔
      (req.amount ≤ 0 ∨ 1000000 < req.amount ∨
       (req.method ≠ "bank" ∧ req.method ≠ "card" ∧ req.method ≠ "instant") ∨
       (∀ c ∈ db.cards, ¬(c.id = req.cardId ∧ c.userId = userId)) ∨
       (∃ c ∈ db.cards, c.id = req.cardId ∧ c.userId = userId ∧
          c.status ≠ CardStatus.ACTIVE) ∨
       sumBalances (fetchUnpaid db req.cardId) < req.amount)) ∧
    ((isError (createPayment userId req db).2 = true) →
      (createPayment userId req db).1 = db) := by
  by_cases h1 : createPaymentSchemaOk req
  · have h1' := h1
    simp only [createPaymentSchemaOk, Bool.and_eq_true, Bool.or_eq_true,
      decide_eq_true_eq, beq_iff_eq] at h1'
    obtain ⟨⟨⟨hcid, hamt⟩, hcap⟩, hmet⟩ := h1'
    cases h2 : findFirst (fun c => c.id == req.cardId && c.userId == userId) db.cards with
    | none =>
        refine ⟨iff_of_true (by simp [createPayment, isError, h1, h2]) ?_,
          fun _ => by simp [createPayment, h1, h2]⟩
        refine .inr (.inr (.inr (.inl ?_)))
        intro c hc hcontr
        have hfc := findFirst_eq_none.mp h2 c hc
        rw [hcontr.1, hcontr.2] at hfc
        simp at hfc
    | some card =>
        have hcardmem := (findFirst_some h2).1
        have hcardprop : card.id = req.cardId ∧ card.userId = userId := by
          have hb := (findFirst_some h2).2
          simp only [Bool.and_eq_true, beq_iff_eq] at hb
          exact hb
        by_cases h3 : card.status = CardStatus.ACTIVE
        · by_cases h4 : sumBalances (fetchUnpaid db req.cardId) < req.amount
          · exact ⟨iff_of_true (by simp [createPayment, isError, h1, h2, h3, h4])
              (.inr (.inr (.inr (.inr (.inr h4))))),
              fun _ => by simp [createPayment, h1, h2, h3, h4]⟩
          · have hno : isError (createPayment userId req db).2 = false := by
              cases hhit : idemLookup db req.idempotencyKey with
              | some e => simp [createPayment, isError, h1, h2, h3, h4, hhit]
              | none => simp [createPayment, isError, h1, h2, h3, h4, hhit]
            refine ⟨iff_of_false (by simp [hno]) ?_,
              fun hcontra => by rw [hno] at hcontra; cases hcontra⟩
            rintro (ha | hb | hc | hd | he | hf)
            · linarith
            · linarith
            · rcases hmet with (hm | hm) | hm
              · exact hc.1 hm
              · exact hc.2.1 hm
              · exact hc.2.2 hm
            · exact hd card hcardmem hcardprop
            · rcases he with ⟨c2, hc2mem, hc2id, hc2user, hc2stat⟩
              have hceq : c2 = card := by
                refine List.inj_on_of_nodup_map hnd hc2mem hcardmem ?_
                rw [hc2id, hcardprop.1]
              rw [hceq] at hc2stat
              exact hc2stat h3
            · exact h4 hf
        · refine ⟨iff_of_true (by simp [createPayment, isError, h1, h2, h3]) ?_,
            fun _ => by simp [createPayment, h1, h2, h3]⟩
          exact .inr (.inr (.inr (.inr (.inl
            ⟨card, hcardmem, hcardprop.1, hcardprop.2, h3⟩))))
  · refine ⟨iff_of_true (by simp [createPayment, isError, h1]) ?_,
      fun _ => by simp [createPayment, h1]⟩
    simp only [createPaymentSchemaOk, Bool.and_eq_true, Bool.or_eq_true,
      decide_eq_true_eq, beq_iff_eq] at h1
    push_neg at h1
    by_cases hc1 : 0 < req.cardId
    · by_cases hc2 : 0 < req.amount
      · by_cases hc3 : req.amount ≤ 1000000
        · have hm := h1 ⟨⟨hc1, hc2⟩, hc3⟩
          push_neg at hm
          exact .inr (.inr (.inl ⟨hm.1.1, hm.1.2, hm.2⟩))
        · exact .inr (.inl (lt_of_not_le hc3))
      · exact .inl (le_of_not_lt hc2)
    · refine .inr (.inr (.inr (.inl ?_)))
      intro c hc hcontr
      have hcpos := hpos c hc
      rw [hcontr.1] at hcpos
      exact hc1 hcpos

/-- C4 witness: the amended boundary instantiated on the two-statement
fixture and a plain in-bounds request (which is accepted: neither side of the
equivalence holds). -/
theorem c4_witness :
    ((∀ c ∈ dbTwo.cards, 0 < c.id) ∧ (dbTwo.cards.map Card.id).Nodup) ∧
    (((isError (createPayment 1 reqPlain dbTwo).2 = true) ↔
       (reqPlain.amount ≤ 0 ∨ 1000000 < reqPlain.amount ∨
        (reqPlain.method ≠ "bank" ∧ reqPlain.method ≠ "card" ∧
          reqPlain.method ≠ "instant") ∨
        (∀ c ∈ dbTwo.cards, ¬(c.id = reqPlain.cardId ∧ c.userId = 1)) ∨
        (∃ c ∈ dbTwo.cards, c.id = reqPlain.cardId ∧ c.userId = 1 ∧
           c.status ≠ CardStatus.ACTIVE) ∨
        sumBalances (fetchUnpaid dbTwo reqPlain.cardId) < reqPlain.amount)) ∧
     ((isError (createPayment 1 reqPlain dbTwo).2 = true) →
       (createPayment 1 reqPlain dbTwo).1 = dbTwo)) :=
  ⟨⟨by norm_num [dbTwo], by simp [dbTwo]⟩,
   c4_validation_boundary 1 reqPlain dbTwo (by norm_num [dbTwo]) (by simp [dbTwo])⟩

end CreditFlow
